import Mathlib

/-!
# Verification of the chiro.js Node connection layer

This file gives a shallow embedding, in Lean, of the `Node` class of the
chiro.js repository (`src/Node.ts`, distributed alongside
`src/dist/Static/Constants.js`), and proves properties of that embedding.

Modelling conventions:

* JavaScript `undefined` / missing values are modelled with `Option`.
  In particular the player's queue is a `List (Option TrackData)`: a
  JavaScript array of tracks may hold `undefined` entries, and
  `Array.prototype.shift` on an empty array returns `undefined`, so the
  result of a shift is an `Option TrackData` either way.
* Event emission (`this.manager.emit(...)`) and other external side
  effects (closing the socket, tearing down a player, the manager
  dropping its node slot) are modelled as an explicit list of `Effect`
  values returned next to the successor state, in the order the code
  performs them.
* Timers are modelled by a `timerPending` flag: `setTimeout` arms it,
  `clearTimeout` clears it, and the timer callback is a separate step
  function (`Node.reconnectTimerFire`) that runs with the flag consumed.
* `JSON.stringify` is modelled by a recursive serializer on an inductive
  JavaScript-value type; top-level `undefined` serializes to `none`
  (JavaScript returns the `undefined` value there, not a string).  The
  inductive type has no circular values, so serialization is total on it.
-/

/-- A track, treated as opaque by the Node layer; only identity matters. -/
structure TrackData where
  id : Nat
deriving DecidableEq, Repr

/-- The slice of the external `Player` that `Node.trackEnd` reads and
writes: the queue storage (a JavaScript array that may contain
`undefined` holes), the queue's `current` and `previous` slots, and the
two repeat flags. -/
structure Player where
  queue : List (Option TrackData)
  current : Option TrackData
  previous : Option TrackData
  trackRepeat : Bool
  queueRepeat : Bool
deriving DecidableEq, Repr

/-- Observable outcomes of the track-event state machine: the events the
manager emits and the re-invocation of `player.play()`. -/
inductive TrackEffect where
  | trackEnd (track : Option TrackData)
  | queueEnd
  | play
deriving DecidableEq, Repr

/-- `Node.queueEnd(player, payload)`: emits the `queueEnd` event. -/
def Node.queueEnd (p : Player) : Player × List TrackEffect :=
  (p, [TrackEffect.queueEnd])

/-- `Node.trackEnd(player, track, payload)`: the advance-or-finish
decision run on track completion.  `track` is the finished track the
caller captured from `player.queue.current` before the call.  Mirrors
the source line by line:

```js
if (!player.queue.length) return this.queueEnd(player, payload);
if (track && player.trackRepeat) {
    if (!player.queue.current) return this.queueEnd(player, payload);
    this.manager.emit("trackEnd", player, track);
    return player.play();
}
player.queue.previous = player.queue.current;
player.queue.current = player.queue.shift();
if (track && player.queueRepeat) {
    if (!player.queue.current) return this.queueEnd(player, payload);
    player.queue.add(player.queue.previous);
    this.manager.emit("trackEnd", player, track);
    return player.play();
}
if (player.queue.length) {
    this.manager.emit("trackEnd", player, track);
    return player.play();
}
```
-/
def Node.trackEnd (p : Player) (track : Option TrackData) :
    Player × List TrackEffect :=
  if p.queue.length = 0 then Node.queueEnd p
  else if track.isSome && p.trackRepeat then
    if p.current.isNone then Node.queueEnd p
    else (p, [TrackEffect.trackEnd track, TrackEffect.play])
  else
    let afterShift : Player :=
      match p.queue with
      | [] => { p with previous := p.current, current := none }
      | x :: xs => { p with previous := p.current, current := x, queue := xs }
    if track.isSome && afterShift.queueRepeat then
      if afterShift.current.isNone then Node.queueEnd afterShift
      else
        ({ afterShift with queue := afterShift.queue ++ [afterShift.previous] },
         [TrackEffect.trackEnd track, TrackEffect.play])
    else if afterShift.queue.length ≠ 0 then
      (afterShift, [TrackEffect.trackEnd track, TrackEffect.play])
    else (afterShift, [])

/-- Transport readiness states of a websocket handle (the `ws` library's
`readyState` constants). -/
inductive SockReady where
  | CONNECTING
  | OPEN
  | CLOSING
  | CLOSED
deriving DecidableEq, Repr

/-- External side effects of the connection supervisor, in the order the
code performs them: manager events, the socket close call, listener
removal, per-player teardown (the external `player.destroy()`), the
manager dropping its node slot, and creation of a fresh websocket. -/
inductive Effect where
  | nodeDisconnect (code : Nat) (reason : String)
  | nodeReconnect
  | nodeError
  | nodeDestroy
  | playerTeardown (guild : Nat)
  | socketClose (code : Nat) (reason : String)
  | removeListeners
  | managerDestroyNode
  | wsCreate
deriving DecidableEq, Repr

/-- The mutable state of a `Node` that the connection supervisor touches:
the socket handle (`none` when `this.socket === null`, otherwise its
`readyState`), whether a reconnect timer is pending, the reconnect
attempt counter (initialised to 1 in the source), the resolved
`options.retryAmount`, and the guild ids of the manager's players bound
to this node. -/
structure NodeState where
  socket : Option SockReady
  timerPending : Bool
  reconnectAttempts : Nat
  retryAmount : Nat
  players : List Nat
deriving DecidableEq, Repr

/-- `get connected()`: `this.socket ? this.socket.readyState === WebSocket.OPEN : false`. -/
def Node.connected (st : NodeState) : Bool :=
  match st.socket with
  | some r => r == SockReady.OPEN
  | none => false

/-- `Node.connect()`: no-op when already connected, otherwise creates a
fresh websocket (which starts in the `CONNECTING` readiness state) and
registers the four handlers on it. -/
def Node.connect (st : NodeState) : NodeState × List Effect :=
  if Node.connected st then (st, [])
  else ({ st with socket := some SockReady.CONNECTING }, [Effect.wsCreate])

/-- `Node.destroy()`: no-op when not connected; otherwise tears down every
player bound to this node, closes the socket with `(1000, "destroy")`,
strips its listeners, nulls the handle, resets the attempt counter to its
initial value 1, cancels any pending reconnect timer, emits `nodeDestroy`
and asks the manager to drop the node slot. -/
def Node.destroy (st : NodeState) : NodeState × List Effect :=
  if Node.connected st then
    ({ st with socket := none, reconnectAttempts := 1, timerPending := false },
     st.players.map (fun g => Effect.playerTeardown g) ++
       [Effect.socketClose 1000 "destroy", Effect.removeListeners,
        Effect.nodeDestroy, Effect.managerDestroyNode])
  else (st, [])

/-- `Node.reconnect()`: returns at once when `this.socket` is null,
otherwise arms the delayed reconnect timer (`setTimeout(..., retryDelay)`). -/
def Node.reconnect (st : NodeState) : NodeState × List Effect :=
  if st.socket.isNone then (st, [])
  else ({ st with timerPending := true }, [])

/-- The body of the `setTimeout` callback armed by `Node.reconnect`,
run when the timer fires (so the pending flag is consumed).  If the
attempt counter has reached `options.retryAmount`, it emits `nodeError`
and calls `destroy()`; otherwise it strips the stale handle's listeners,
nulls it, emits `nodeReconnect`, calls `connect()` and increments the
attempt counter. -/
def Node.reconnectTimerFire (st : NodeState) : NodeState × List Effect :=
  let st1 : NodeState := { st with timerPending := false }
  if st1.retryAmount ≤ st1.reconnectAttempts then
    let d := Node.destroy st1
    (d.1, Effect.nodeError :: d.2)
  else
    let st2 : NodeState := { st1 with socket := none }
    let c := Node.connect st2
    ({ c.1 with reconnectAttempts := c.1.reconnectAttempts + 1 },
     Effect.removeListeners :: Effect.nodeReconnect :: c.2)

/-- `Node.close(code, reason)`: the websocket close handler.  Emits
`nodeDisconnect` and, unless the close was the explicit
`(1000, "destroy")` issued by `destroy()`, calls `reconnect()`. -/
def Node.close (st : NodeState) (code : Nat) (reason : String) :
    NodeState × List Effect :=
  let ev := Effect.nodeDisconnect code reason
  if code ≠ 1000 ∨ reason ≠ "destroy" then
    let r := Node.reconnect st
    (r.1, ev :: r.2)
  else (st, [ev])

/-- An inductive model of the JavaScript values a caller can pass to
`Node.send`.  Functions and symbols are omitted (they never appear as
payloads); numbers are modelled as integers. -/
inductive JsValue where
  | jsUndefined
  | jsNull
  | bool (b : Bool)
  | num (n : Int)
  | str (s : String)
  | arr (elems : List JsValue)
  | obj (fields : List (String × JsValue))

/-- JavaScript truthiness of a `JsValue` (`!data` in the source is the
negation of this). -/
def JsValue.truthy : JsValue → Bool
  | JsValue.jsUndefined => false
  | JsValue.jsNull => false
  | JsValue.bool b => b
  | JsValue.num n => n != 0
  | JsValue.str s => !(s == "")
  | JsValue.arr _ => true
  | JsValue.obj _ => true

/-- Minimal JSON string escaping (quote and backslash), enough to keep
the serializer well defined; the proofs only inspect the first character
of serialized output. -/
def jsonEscape (s : String) : String :=
  String.join (s.toList.map (fun c =>
    if c = '"' then "\\\"" else if c = '\\' then "\\\\" else String.singleton c))

mutual

/-- `JSON.stringify`: `none` models the `undefined` result for a
top-level `undefined` input; inside arrays `undefined` serializes as
`null` and inside objects the field is dropped, as in JavaScript. -/
def JsValue.stringify : JsValue → Option String
  | JsValue.jsUndefined => none
  | JsValue.jsNull => some "null"
  | JsValue.bool b => some (if b then "true" else "false")
  | JsValue.num n => some (toString n)
  | JsValue.str s => some ("\"" ++ jsonEscape s ++ "\"")
  | JsValue.arr elems =>
      some ("[" ++ String.intercalate "," (stringifyElems elems) ++ "]")
  | JsValue.obj fields =>
      some ("\x7b" ++ String.intercalate "," (stringifyFields fields) ++ "\x7d")

/-- Serialize array elements; `undefined` entries become `"null"`. -/
def stringifyElems : List JsValue → List String
  | [] => []
  | x :: xs => (JsValue.stringify x).getD "null" :: stringifyElems xs

/-- Serialize object fields; fields whose value is `undefined` are dropped. -/
def stringifyFields : List (String × JsValue) → List String
  | [] => []
  | (k, v) :: fs =>
      match JsValue.stringify v with
      | none => stringifyFields fs
      | some s => ("\"" ++ jsonEscape k ++ "\":" ++ s) :: stringifyFields fs

end

/-- The three ways the promise returned by `Node.send` can conclude in
this layer: resolve `false` (not connected), reject with the
invalid-payload error, or hand the serialized frame to the socket (whose
write callback then settles the promise). -/
inductive SendOutcome where
  | resolvedFalse
  | rejectedInvalid
  | socketWrite (frame : String)
deriving DecidableEq, Repr

/-- `Node.send(data)`:

```js
return new Promise((resolve, reject) => {
    const stringified = JSON.stringify(data);
    if (!this.connected) return resolve(false);
    if (!data || !stringified.startsWith("\x7b")) return reject(new Error(...));
    this.socket.send(stringified, error => error ? reject(error) : resolve(true));
});
```

The `none` branch of the match is unreachable (every falsy-free value
serializes to a string) and is mapped to a rejection, which is what the
`TypeError` thrown by `undefined.startsWith` would produce in JavaScript. -/
def Node.send (st : NodeState) (data : JsValue) : SendOutcome :=
  if !(Node.connected st) then SendOutcome.resolvedFalse
  else if !data.truthy then SendOutcome.rejectedInvalid
  else
    match data.stringify with
    | none => SendOutcome.rejectedInvalid
    | some s =>
        if !(s.startsWith "\x7b") then SendOutcome.rejectedInvalid
        else SendOutcome.socketWrite s

/-- The options record passed to the `Node` constructor; every field the
caller may omit is an `Option`. -/
structure NodeOptions where
  host : Option String
  port : Option Nat
  password : Option String
  secure : Option Bool
  identifier : Option String
  retryAmount : Option Nat
  retryDelay : Option Nat
deriving DecidableEq, Repr

/-- The options record after the constructor's spread with defaults
(`port: 3000`, `password: generateRandomPassword()`, `secure: false`,
`retryAmount: 5`, `retryDelay: 30e3`; `host` and `identifier` have no
default). -/
structure ResolvedOptions where
  host : Option String
  port : Nat
  password : String
  secure : Bool
  identifier : Option String
  retryAmount : Nat
  retryDelay : Nat
deriving DecidableEq, Repr

/-- The constructor's `{ port: 3000, password: generateRandomPassword(),
secure: false, retryAmount: 5, retryDelay: 30e3, ...options }` spread;
the randomly generated password is passed in as `freshPassword` to keep
the model pure. -/
def applyDefaults (opts : NodeOptions) (freshPassword : String) :
    ResolvedOptions :=
  { host := opts.host
    port := opts.port.getD 3000
    password := opts.password.getD freshPassword
    secure := opts.secure.getD false
    identifier := opts.identifier
    retryAmount := opts.retryAmount.getD 5
    retryDelay := opts.retryDelay.getD 30000 }

/-- A constructed `Node` as the constructor observes it: its resolved
options.  (The connection-level mutable state is modelled separately by
`NodeState`.) -/
structure NodeObj where
  options : ResolvedOptions
deriving DecidableEq, Repr

/-- The slice of the `Manager` the constructor touches: its single node
slot. -/
structure ManagerState where
  node : Option NodeObj
deriving DecidableEq, Repr

/-- Events the constructor can emit on the manager. -/
inductive CtorEvent where
  | nodeCreate (n : NodeObj)
deriving DecidableEq, Repr

/-- The `Node` constructor.  `staticManager` is `Node._manager` (a fresh
instance's `this.manager` field is always undefined, so the constructor
always falls back to it); a missing manager throws the `RangeError`.
When the manager's node slot is occupied the constructor returns that
object (JavaScript constructor-return override) before any defaulting,
slot write or event; otherwise it resolves the options, installs itself
in the slot and emits `nodeCreate`. -/
def nodeConstructor (staticManager : Option ManagerState) (opts : NodeOptions)
    (freshPassword : String) :
    Except String (NodeObj × ManagerState × List CtorEvent) :=
  match staticManager with
  | none => Except.error "Manager has not been initiated."
  | some mgr =>
      match mgr.node with
      | some existing => Except.ok (existing, mgr, [])
      | none =>
          let n : NodeObj := { options := applyDefaults opts freshPassword }
          Except.ok (n, { mgr with node := some n }, [CtorEvent.nodeCreate n])

/-- C5: for every Player with a non-empty queue, a current track, and
single-track repeat enabled, the finish-event decision (which receives
the current track as the finished track) signals track-end for that
track, re-invokes play, and leaves the whole player state — current,
previous and queue contents — unchanged, whatever the whole-queue repeat
flag is. -/
theorem trackEnd_trackRepeat_keeps_state
    (q0 : Option TrackData) (qs : List (Option TrackData)) (a : TrackData)
    (prev : Option TrackData) (qr : Bool) :
    Node.trackEnd ⟨q0 :: qs, some a, prev, true, qr⟩ (some a) =
      (⟨q0 :: qs, some a, prev, true, qr⟩,
       [TrackEffect.trackEnd (some a), TrackEffect.play]) := by
  simp [Node.trackEnd]

/-- C6: with both repeat flags off, queue `[B, C]` and current `A`, the
finish-event decision sets previous to `A`, current to `B`, leaves the
queue as `[C]`, signals track-end for `A` and re-invokes play. -/
theorem trackEnd_advances_queue (a b c : TrackData) (prev : Option TrackData) :
    Node.trackEnd ⟨[some b, some c], some a, prev, false, false⟩ (some a) =
      (⟨[some c], some b, some a, false, false⟩,
       [TrackEffect.trackEnd (some a), TrackEffect.play]) := by
  simp [Node.trackEnd]

/-- C7: with whole-queue repeat enabled (and the higher-priority
single-track repeat disabled, per the spec's "else if"), a current track
`A` and a queue headed by a track `B`, the finish-event decision advances
the queue — previous becomes `A`, current becomes `B` — re-appends the
previous track to the tail of the queue, signals track-end and re-invokes
play.  For queue `[B]` the queue becomes `[A]`. -/
theorem trackEnd_queueRepeat_recycles
    (a b : TrackData) (rest : List (Option TrackData)) (prev : Option TrackData) :
    Node.trackEnd ⟨some b :: rest, some a, prev, false, true⟩ (some a) =
      (⟨rest ++ [some a], some b, some a, false, true⟩,
       [TrackEffect.trackEnd (some a), TrackEffect.play]) := by
  simp [Node.trackEnd]

/-- C2 counterexample: a player with `trackRepeat = false`,
`queueRepeat = false`, current track `A` and a queue whose length is 1
but whose single slot is a JavaScript `undefined` hole.  The length
check passes, the shift during advancing yields no track, yet the
decision emits nothing at all — in particular no queue-end signal —
refuting the claim that a queue-end signal is emitted regardless of the
whole-queue repeat flag. -/
theorem trackEnd_emptyPop_cex :
    (Node.trackEnd ⟨[none], some ⟨0⟩, none, false, false⟩ (some ⟨0⟩)).2 = [] ∧
    TrackEffect.queueEnd ∉
      (Node.trackEnd ⟨[none], some ⟨0⟩, none, false, false⟩ (some ⟨0⟩)).2 := by
  decide

/-- C2 amended: in the advance-or-finish decision, when the queue
reported remaining entries but the pop (shift) during advancing yields
no track, a queue-end signal is emitted and processing stops only when a
finished track exists and whole-queue repeat is enabled; otherwise no
queue-end is signaled — the decision falls through to the queue-length
check, signaling track-end and re-invoking play when entries remain and
doing nothing when none do. -/
theorem trackEnd_emptyPop_amended (p : Player) (track : Option TrackData)
    (h1 : p.queue.head? = some none)
    (h2 : (track.isSome && p.trackRepeat) = false) :
    ((track.isSome && p.queueRepeat) = true →
      Node.trackEnd p track =
        ({ p with previous := p.current, current := none, queue := p.queue.tail },
         [TrackEffect.queueEnd])) ∧
    ((track.isSome && p.queueRepeat) = false →
      TrackEffect.queueEnd ∉ (Node.trackEnd p track).2 ∧
      (Node.trackEnd p track).2 =
        (if p.queue.tail.length ≠ 0 then
          [TrackEffect.trackEnd track, TrackEffect.play] else [])) := by
  obtain ⟨t, hq⟩ : ∃ t, p.queue = none :: t := by
    cases hq : p.queue with
    | nil => rw [hq] at h1; simp at h1
    | cons x xs =>
        rw [hq] at h1
        simp only [List.head?] at h1
        exact ⟨xs, by rw [Option.some_inj] at h1; rw [h1]⟩
  constructor
  · intro h3
    simp [Node.trackEnd, Node.queueEnd, hq, h2, h3]
  · intro h3
    constructor
    · simp [Node.trackEnd, Node.queueEnd, hq, h2, h3]
      split <;> simp
    · simp [Node.trackEnd, Node.queueEnd, hq, h2, h3]
      by_cases ht : t = [] <;> simp [ht]

/-- Concrete instances of both halves of the amended C2 statement: with
whole-queue repeat on, the empty pop yields a lone queue-end signal;
with it off and a further entry remaining, no queue-end is signaled. -/
theorem trackEnd_emptyPop_amended_witness :
    (Node.trackEnd ⟨[none], some ⟨0⟩, none, false, true⟩ (some ⟨0⟩) =
      (⟨[], none, some ⟨0⟩, false, true⟩, [TrackEffect.queueEnd])) ∧
    TrackEffect.queueEnd ∉
      (Node.trackEnd ⟨[none, some ⟨1⟩], some ⟨0⟩, none, false, false⟩ (some ⟨0⟩)).2 :=
  ⟨(trackEnd_emptyPop_amended ⟨[none], some ⟨0⟩, none, false, true⟩ (some ⟨0⟩)
      (by decide) (by decide)).1 (by decide),
   ((trackEnd_emptyPop_amended ⟨[none, some ⟨1⟩], some ⟨0⟩, none, false, false⟩
      (some ⟨0⟩) (by decide) (by decide)).2 (by decide)).1⟩

/-- C1: when the reconnect timer fires with the attempt counter at or
past the configured `retryAmount`, exactly one terminal `nodeError`
event is signaled, `destroy()` is invoked (the first branch of
`Node.reconnectTimerFire` is `Node.destroy`), and the node ends
disconnected with no pending reconnect timer. -/
theorem reconnectFire_exhausted_terminal (st : NodeState)
    (_h1 : st.timerPending = true)
    (h2 : st.retryAmount ≤ st.reconnectAttempts) :
    (Node.reconnectTimerFire st).2.count Effect.nodeError = 1 ∧
    Node.connected (Node.reconnectTimerFire st).1 = false ∧
    (Node.reconnectTimerFire st).1.timerPending = false := by
  cases hsock : st.socket with
  | none =>
    simp [Node.reconnectTimerFire, Node.destroy, Node.connected, h2, hsock]
  | some r =>
    by_cases hr : r = SockReady.OPEN
    · subst hr
      simp [Node.reconnectTimerFire, Node.destroy, Node.connected, h2, hsock,
        List.count_cons, List.count_append, List.count_eq_zero, List.mem_map]
    · simp [Node.reconnectTimerFire, Node.destroy, Node.connected, h2, hsock, hr]

/-- A node whose timer fires after its fifth cycle with `retryAmount = 5`
signals one `nodeError`, ends disconnected, and holds no pending timer. -/
theorem reconnectFire_exhausted_terminal_witness :
    (Node.reconnectTimerFire ⟨some SockReady.CLOSED, true, 5, 5, []⟩).2.count
        Effect.nodeError = 1 ∧
    Node.connected (Node.reconnectTimerFire ⟨some SockReady.CLOSED, true, 5, 5, []⟩).1
        = false ∧
    (Node.reconnectTimerFire ⟨some SockReady.CLOSED, true, 5, 5, []⟩).1.timerPending
        = false :=
  reconnectFire_exhausted_terminal ⟨some SockReady.CLOSED, true, 5, 5, []⟩
    (by decide) (by decide)

/-- C3: for every payload, `send(data)` on a node that is not connected
resolves to `false`; no rejection path is reachable in that case. -/
theorem send_disconnected_resolves_false (st : NodeState) (data : JsValue)
    (h : Node.connected st = false) :
    Node.send st data = SendOutcome.resolvedFalse := by
  simp [Node.send, h]

/-- A disconnected node resolves `false` on a well-formed object payload. -/
theorem send_disconnected_resolves_false_witness :
    Node.send ⟨none, false, 1, 5, []⟩ (JsValue.obj []) = SendOutcome.resolvedFalse :=
  send_disconnected_resolves_false ⟨none, false, 1, 5, []⟩ (JsValue.obj [])
    (by decide)

/-- C4: the close handler never arms a reconnect timer for the explicit
`(1000, "destroy")` close issued by `destroy()` — it leaves the state
untouched and only emits `nodeDisconnect` — while for every other
`(code, reason)` pair delivered by a live socket (a close event is
raised by the socket the handlers are registered on, so `this.socket`
is non-null there) it arms the reconnect timer. -/
theorem close_arms_reconnect (st : NodeState) (code : Nat) (reason : String)
    (h1 : ¬(code = 1000 ∧ reason = "destroy"))
    (h2 : st.socket.isSome = true) :
    (Node.close st 1000 "destroy" = (st, [Effect.nodeDisconnect 1000 "destroy"])) ∧
    (Node.close st code reason).1.timerPending = true := by
  constructor
  · simp [Node.close]
  · have hcond : code ≠ 1000 ∨ reason ≠ "destroy" := by tauto
    have hnone : st.socket.isNone = false := by
      cases hs : st.socket with
      | none => rw [hs] at h2; simp at h2
      | some r => simp
    simp [Node.close, Node.reconnect, hcond, hnone]

/-- A live socket closing with `(1006, "")` arms the reconnect timer,
while `(1000, "destroy")` leaves the node untouched. -/
theorem close_arms_reconnect_witness :
    (Node.close ⟨some SockReady.CLOSED, false, 1, 5, []⟩ 1000 "destroy" =
      (⟨some SockReady.CLOSED, false, 1, 5, []⟩,
       [Effect.nodeDisconnect 1000 "destroy"])) ∧
    (Node.close ⟨some SockReady.CLOSED, false, 1, 5, []⟩ 1006 "").1.timerPending
      = true :=
  close_arms_reconnect ⟨some SockReady.CLOSED, false, 1, 5, []⟩ 1006 ""
    (by decide) (by decide)

/-- C8: on a connected node, `send(data)` with a falsy payload or one
whose serialized form does not start with the object-open character
rejects with the invalid-payload error and never reaches the socket
write. -/
theorem send_invalid_payload_rejects (st : NodeState) (data : JsValue)
    (hc : Node.connected st = true)
    (h : data.truthy = false ∨
      ((data.stringify.getD "").startsWith "\x7b") = false) :
    Node.send st data = SendOutcome.rejectedInvalid := by
  unfold Node.send
  rw [hc]
  cases h with
  | inl ht => simp [ht]
  | inr hs =>
    by_cases ht : data.truthy = true
    · simp only [ht, Bool.not_true, Bool.false_eq_true, if_false, if_true]
      cases hst : data.stringify with
      | none => simp
      | some s =>
        rw [hst] at hs
        simp only [Option.getD_some] at hs
        simp [hs]
    · simp only [Bool.not_eq_true] at ht
      simp [ht]

/-- `send(null)` on a connected node rejects with the invalid-payload
error. -/
theorem send_invalid_payload_rejects_witness :
    Node.send ⟨some SockReady.OPEN, false, 1, 5, []⟩ JsValue.jsNull =
      SendOutcome.rejectedInvalid :=
  send_invalid_payload_rejects ⟨some SockReady.OPEN, false, 1, 5, []⟩
    JsValue.jsNull (by decide) (Or.inl (by decide))

/-- C9: `destroy()` is idempotent — a second call right after a first
one is a no-op that changes no state and performs no effect (so no
duplicate signals), and calling `destroy()` while already disconnected
is a no-op. -/
theorem destroy_idempotent :
    ∀ st : NodeState,
      Node.destroy (Node.destroy st).1 = ((Node.destroy st).1, []) ∧
      (Node.connected st = false → Node.destroy st = (st, [])) := by
  intro st
  by_cases hc : Node.connected st = true
  · refine ⟨?_, ?_⟩
    · cases hsock : st.socket with
      | none => simp [Node.connected, hsock] at hc
      | some r =>
        simp only [Node.connected, hsock, beq_iff_eq] at hc
        subst hc
        simp [Node.destroy, Node.connected, hsock]
    · intro h; rw [h] at hc; exact absurd hc (by simp)
  · simp only [Bool.not_eq_true] at hc
    exact ⟨by simp [Node.destroy, hc], fun _ => by simp [Node.destroy, hc]⟩

/-- Destroying a connected node twice equals destroying it once, and
destroying an already-disconnected node changes nothing. -/
theorem destroy_idempotent_witness :
    Node.destroy (Node.destroy ⟨some SockReady.OPEN, false, 3, 5, [7]⟩).1 =
      ((Node.destroy ⟨some SockReady.OPEN, false, 3, 5, [7]⟩).1, []) ∧
    Node.destroy ⟨none, false, 1, 5, []⟩ = (⟨none, false, 1, 5, []⟩, []) :=
  ⟨(destroy_idempotent ⟨some SockReady.OPEN, false, 3, 5, [7]⟩).1,
   (destroy_idempotent ⟨none, false, 1, 5, []⟩).2 (by decide)⟩

/-- C10: when the manager's node slot is already occupied, the
constructor returns the existing node object with the manager unchanged
(no slot overwrite) and emits no `nodeCreate` event; it returns before
any option defaulting. -/
theorem ctor_returns_existing_node (mgr : ManagerState) (opts : NodeOptions)
    (freshPassword : String) (n : NodeObj)
    (h : mgr.node = some n) :
    nodeConstructor (some mgr) opts freshPassword = Except.ok (n, mgr, []) := by
  simp [nodeConstructor, h]

/-- Constructing against a manager whose slot holds a node yields that
node, the same manager, and no events. -/
theorem ctor_returns_existing_node_witness :
    nodeConstructor
        (some ⟨some ⟨⟨some "localhost", 3000, "pw", false, none, 5, 30000⟩⟩⟩)
        ⟨none, some 443, none, some true, none, none, none⟩ "fresh" =
      Except.ok (⟨⟨some "localhost", 3000, "pw", false, none, 5, 30000⟩⟩,
        ⟨some ⟨⟨some "localhost", 3000, "pw", false, none, 5, 30000⟩⟩⟩, []) :=
  ctor_returns_existing_node
    ⟨some ⟨⟨some "localhost", 3000, "pw", false, none, 5, 30000⟩⟩⟩
    ⟨none, some 443, none, some true, none, none, none⟩ "fresh"
    ⟨⟨some "localhost", 3000, "pw", false, none, 5, 30000⟩⟩ rfl
